import Mathlib

/-!
Verification of the evaluation aggregation and verdict engine of the
LLM evaluation framework.

The Python sources are embedded shallowly:
- scores are exact rationals (`ℚ`), standing for the Python floats;
- the external judge (a DeepEval metric: a model call that sets `.score`
  and `.reason`) is modelled as a fixed per-case function returning a
  `MetricMeasurement`;
- the result dictionaries returned by the evaluators become structures
  whose fields carry the dictionary keys' names;
- fallible loading code returns `Except String _` where Python raises.
-/

/-- The outcome of one judge call: DeepEval metrics expose `.score` and
`.reason` after `measure`. -/
structure MetricMeasurement where
  score : ℚ
  reason : String

/-- One metric's entry in an `individual_results` element:
`{"score": ..., "passed": ..., "reason": ...}`. -/
structure MetricResult where
  score : ℚ
  passed : Bool
  reason : String

/-- `BaseEvaluator.calculate_average_score` (src/evaluators/base.py):
`if not scores: return 0.0` then `sum(scores) / len(scores)`. -/
def calculate_average_score (scores : List ℚ) : ℚ :=
  if scores.isEmpty then 0 else scores.sum / scores.length

/-- `BaseEvaluator.check_pass_threshold` (src/evaluators/base.py):
`score >= self.threshold`.  The evaluator's threshold is passed
explicitly. -/
def check_pass_threshold (threshold score : ℚ) : Bool :=
  decide (score ≥ threshold)

/-! ## RAG evaluator (src/evaluators/rag_evaluator.py) -/

/-- `RAGTestCase` (src/data/loader.py). -/
structure RAGTestCase where
  input : String
  actual_output : String
  expected_output : String
  context : List String
deriving DecidableEq

/-- The three judge metrics a `RAGEvaluator` owns, modelled as fixed
per-case score/reason functions. -/
structure RAGJudge where
  faithfulness : RAGTestCase → MetricMeasurement
  contextual_recall : RAGTestCase → MetricMeasurement
  answer_relevancy : RAGTestCase → MetricMeasurement

/-- One element of `results["individual_results"]` for RAG. -/
structure RAGIndividualResult where
  test_case_id : ℕ
  input : String
  faithfulness : MetricResult
  contextual_recall : MetricResult
  answer_relevancy : MetricResult

/-- The dictionary returned by `RAGEvaluator.evaluate`. -/
structure RAGResults where
  total_cases : ℕ
  faithfulness_scores : List ℚ
  contextual_recall_scores : List ℚ
  answer_relevancy_scores : List ℚ
  individual_results : List RAGIndividualResult
  average_faithfulness : ℚ
  average_contextual_recall : ℚ
  average_answer_relevancy : ℚ
  overall_average : ℚ
  passed : Bool

namespace RAGEvaluator

/-- `RAGEvaluator.evaluate` (src/evaluators/rag_evaluator.py, lines
46-139).  The Python loop appends, per enumerated case, one score to
each `*_scores` list and one entry to `individual_results`; that loop
is rendered as maps over the case list resp. its enumeration.  The
averages, the pooled `overall_average` over the concatenation of the
three score lists, and the four-conjunct `passed` follow lines
112-137 verbatim. -/
def evaluate (threshold : ℚ) (judge : RAGJudge) (test_cases : List RAGTestCase) :
    RAGResults :=
  let faithfulness_scores := test_cases.map (fun tc => (judge.faithfulness tc).score)
  let contextual_recall_scores := test_cases.map (fun tc => (judge.contextual_recall tc).score)
  let answer_relevancy_scores := test_cases.map (fun tc => (judge.answer_relevancy tc).score)
  let individual_results := test_cases.enum.map (fun p =>
    { test_case_id := p.1
      input := p.2.input
      faithfulness :=
        { score := (judge.faithfulness p.2).score
          passed := check_pass_threshold threshold (judge.faithfulness p.2).score
          reason := (judge.faithfulness p.2).reason }
      contextual_recall :=
        { score := (judge.contextual_recall p.2).score
          passed := check_pass_threshold threshold (judge.contextual_recall p.2).score
          reason := (judge.contextual_recall p.2).reason }
      answer_relevancy :=
        { score := (judge.answer_relevancy p.2).score
          passed := check_pass_threshold threshold (judge.answer_relevancy p.2).score
          reason := (judge.answer_relevancy p.2).reason } : RAGIndividualResult })
  let average_faithfulness := calculate_average_score faithfulness_scores
  let average_contextual_recall := calculate_average_score contextual_recall_scores
  let average_answer_relevancy := calculate_average_score answer_relevancy_scores
  let all_scores := faithfulness_scores ++ contextual_recall_scores ++ answer_relevancy_scores
  let overall_average := calculate_average_score all_scores
  { total_cases := test_cases.length
    faithfulness_scores := faithfulness_scores
    contextual_recall_scores := contextual_recall_scores
    answer_relevancy_scores := answer_relevancy_scores
    individual_results := individual_results
    average_faithfulness := average_faithfulness
    average_contextual_recall := average_contextual_recall
    average_answer_relevancy := average_answer_relevancy
    overall_average := overall_average
    passed := decide (overall_average ≥ threshold)
      && decide (average_faithfulness ≥ threshold)
      && decide (average_contextual_recall ≥ threshold)
      && decide (average_answer_relevancy ≥ threshold) }

end RAGEvaluator

/-! ## Agent evaluator (src/evaluators/agent_evaluator.py) -/

/-- `AgentTestCase` (src/data/loader.py). -/
structure AgentTestCase where
  input : String
  actual_output : String
  expected_output : String
deriving DecidableEq

/-- The two judge metrics an `AgentEvaluator` owns (a G-Eval
correctness metric and answer relevancy), as fixed per-case
functions. -/
structure AgentJudge where
  correctness : AgentTestCase → MetricMeasurement
  answer_relevancy : AgentTestCase → MetricMeasurement

/-- One element of `results["individual_results"]` for Agent. -/
structure AgentIndividualResult where
  test_case_id : ℕ
  input : String
  correctness : MetricResult
  answer_relevancy : MetricResult

/-- The dictionary returned by `AgentEvaluator.evaluate`. -/
structure AgentResults where
  total_cases : ℕ
  correctness_scores : List ℚ
  answer_relevancy_scores : List ℚ
  individual_results : List AgentIndividualResult
  average_correctness : ℚ
  average_answer_relevancy : ℚ
  overall_average : ℚ
  passed : Bool

namespace AgentEvaluator

/-- `AgentEvaluator.evaluate` (src/evaluators/agent_evaluator.py,
lines 50-126): per-case scores, two per-metric averages, a pooled
`overall_average` over the concatenated score lists, and the
three-conjunct `passed` of lines 119-124. -/
def evaluate (threshold : ℚ) (judge : AgentJudge) (test_cases : List AgentTestCase) :
    AgentResults :=
  let correctness_scores := test_cases.map (fun tc => (judge.correctness tc).score)
  let answer_relevancy_scores := test_cases.map (fun tc => (judge.answer_relevancy tc).score)
  let individual_results := test_cases.enum.map (fun p =>
    { test_case_id := p.1
      input := p.2.input
      correctness :=
        { score := (judge.correctness p.2).score
          passed := check_pass_threshold threshold (judge.correctness p.2).score
          reason := (judge.correctness p.2).reason }
      answer_relevancy :=
        { score := (judge.answer_relevancy p.2).score
          passed := check_pass_threshold threshold (judge.answer_relevancy p.2).score
          reason := (judge.answer_relevancy p.2).reason } : AgentIndividualResult })
  let average_correctness := calculate_average_score correctness_scores
  let average_answer_relevancy := calculate_average_score answer_relevancy_scores
  let all_scores := correctness_scores ++ answer_relevancy_scores
  let overall_average := calculate_average_score all_scores
  { total_cases := test_cases.length
    correctness_scores := correctness_scores
    answer_relevancy_scores := answer_relevancy_scores
    individual_results := individual_results
    average_correctness := average_correctness
    average_answer_relevancy := average_answer_relevancy
    overall_average := overall_average
    passed := decide (overall_average ≥ threshold)
      && decide (average_correctness ≥ threshold)
      && decide (average_answer_relevancy ≥ threshold) }

end AgentEvaluator

/-! ## Chatbot evaluator (src/evaluators/chatbot_evaluator.py) -/

/-- `ChatbotTestCase` (src/data/loader.py). -/
structure ChatbotTestCase where
  input : String
  actual_output : String
deriving DecidableEq

/-- The two judge metrics a `ChatbotEvaluator` owns (toxicity and
answer relevancy), as fixed per-case functions. -/
structure ChatbotJudge where
  toxicity : ChatbotTestCase → MetricMeasurement
  answer_relevancy : ChatbotTestCase → MetricMeasurement

/-- One element of `results["toxic_cases"]` (chatbot_evaluator.py,
lines 88-94). -/
structure ToxicCase where
  test_case_id : ℕ
  input : String
  output : String
  toxicity_score : ℚ
  reason : String

/-- One element of `results["individual_results"]` for Chatbot. -/
structure ChatbotIndividualResult where
  test_case_id : ℕ
  input : String
  actual_output : String
  toxicity : MetricResult
  answer_relevancy : MetricResult

/-- The dictionary returned by `ChatbotEvaluator.evaluate`. -/
structure ChatbotResults where
  total_cases : ℕ
  toxicity_scores : List ℚ
  answer_relevancy_scores : List ℚ
  individual_results : List ChatbotIndividualResult
  toxic_cases : List ToxicCase
  average_toxicity : ℚ
  average_answer_relevancy : ℚ
  passed : Bool
  critical_failure : Bool

namespace ChatbotEvaluator

/-- `ChatbotEvaluator.evaluate` (src/evaluators/chatbot_evaluator.py,
lines 46-134).  Per enumerated case the loop records both scores,
computes `toxicity_passed = toxicity_score <= toxicity_threshold`
(line 84, lower is better), appends a `ToxicCase` when that check
fails (lines 87-94, rendered as a `filterMap` over the enumeration),
and appends the individual result.  `passed` and `critical_failure`
follow lines 122-132: `has_toxic_content = len(toxic_cases) > 0`,
`passed = not has_toxic_content and average_answer_relevancy >=
threshold`, `critical_failure = has_toxic_content`. -/
def evaluate (threshold toxicity_threshold : ℚ) (judge : ChatbotJudge)
    (test_cases : List ChatbotTestCase) : ChatbotResults :=
  let toxicity_scores := test_cases.map (fun tc => (judge.toxicity tc).score)
  let answer_relevancy_scores := test_cases.map (fun tc => (judge.answer_relevancy tc).score)
  let toxic_cases := test_cases.enum.filterMap (fun p =>
    if (judge.toxicity p.2).score ≤ toxicity_threshold then none
    else some { test_case_id := p.1
                input := p.2.input
                output := p.2.actual_output
                toxicity_score := (judge.toxicity p.2).score
                reason := (judge.toxicity p.2).reason : ToxicCase })
  let individual_results := test_cases.enum.map (fun p =>
    { test_case_id := p.1
      input := p.2.input
      actual_output := p.2.actual_output
      toxicity :=
        { score := (judge.toxicity p.2).score
          passed := decide ((judge.toxicity p.2).score ≤ toxicity_threshold)
          reason := (judge.toxicity p.2).reason }
      answer_relevancy :=
        { score := (judge.answer_relevancy p.2).score
          passed := check_pass_threshold threshold (judge.answer_relevancy p.2).score
          reason := (judge.answer_relevancy p.2).reason } : ChatbotIndividualResult })
  let average_toxicity := calculate_average_score toxicity_scores
  let average_answer_relevancy := calculate_average_score answer_relevancy_scores
  let has_toxic_content := decide (toxic_cases.length > 0)
  { total_cases := test_cases.length
    toxicity_scores := toxicity_scores
    answer_relevancy_scores := answer_relevancy_scores
    individual_results := individual_results
    toxic_cases := toxic_cases
    average_toxicity := average_toxicity
    average_answer_relevancy := average_answer_relevancy
    passed := !has_toxic_content && decide (average_answer_relevancy ≥ threshold)
    critical_failure := has_toxic_content }

end ChatbotEvaluator

/-! ## Dataset loader (src/data/loader.py)

A loaded JSON object may lack keys, so the raw shapes use `Option`
fields.  Pydantic model construction (`RAGTestCase(**case)`) fails when
a required field is absent; it accepts empty strings.  Python `raise`
becomes `Except.error`. -/

/-- A raw test-case record as found in the JSON file: every field may
be absent. -/
structure RawRAGCase where
  input : Option String
  actual_output : Option String
  expected_output : Option String
  context : Option (List String)

/-- The top-level JSON record of a RAG dataset file: the `test_cases`
key may be absent. -/
structure RAGDataset where
  test_cases : Option (List RawRAGCase)

/-- Pydantic validation of one record: `RAGTestCase(**case)` raises a
`ValidationError` exactly when a required field is missing (loader.py,
lines 10-15 and 77). -/
def parse_rag_test_case (case : RawRAGCase) : Except String RAGTestCase :=
  match case.input with
  | none => Except.error "ValidationError: input field required"
  | some i =>
    match case.actual_output with
    | none => Except.error "ValidationError: actual_output field required"
    | some a =>
      match case.expected_output with
      | none => Except.error "ValidationError: expected_output field required"
      | some e =>
        match case.context with
        | none => Except.error "ValidationError: context field required"
        | some ctx =>
          Except.ok { input := i, actual_output := a, expected_output := e, context := ctx }

/-- `DatasetLoader.load_rag_dataset` (loader.py, lines 65-77):
`test_cases = data.get("test_cases", [])` — an absent key defaults to
the empty list — then each element is parsed by the pydantic model. -/
def load_rag_dataset (data : RAGDataset) : Except String (List RAGTestCase) :=
  let test_cases := data.test_cases.getD []
  test_cases.mapM parse_rag_test_case

/-- `DatasetLoader.validate_dataset` (loader.py, lines 107-127): raises
on an empty list, then raises on the first case whose `input` or
`actual_output` is empty (Python string truthiness), else returns
`True`.  It exists in the loader but is not invoked by
`run_evaluation.py`'s pipeline. -/
def validate_dataset (test_cases : List RAGTestCase) : Except String Bool :=
  if test_cases.isEmpty then
    Except.error "Dataset is empty"
  else if test_cases.any (fun case => case.input == "" || case.actual_output == "") then
    Except.error "Test case has missing required fields"
  else
    Except.ok true

/-! ## CLI exit codes (src/run_evaluation.py)

The per-system runners return the process exit code; `run_all_evaluations`
wraps each runner in `try/except`, appending exit code 1 when a runner
raises, and returns `max(exit_codes)`. -/

/-- Tail of `run_rag_evaluation` (run_evaluation.py, line 55):
`return 0 if results["passed"] else 1`. -/
def run_rag_exit_code (results : RAGResults) : ℕ :=
  if results.passed then 0 else 1

/-- Tail of `run_agent_evaluation` (run_evaluation.py, line 94). -/
def run_agent_exit_code (results : AgentResults) : ℕ :=
  if results.passed then 0 else 1

/-- Tail of `run_chatbot_evaluation` (run_evaluation.py, lines
136-143): `critical_failure` returns 1 before the
`0 if passed else 1` line is reached. -/
def run_chatbot_exit_code (results : ChatbotResults) : ℕ :=
  if results.critical_failure then 1
  else if results.passed then 0 else 1

/-- The contribution of one wrapped runner in `run_all_evaluations`
(run_evaluation.py, lines 154-177): its returned exit code, or 1 when
it raised. -/
def outcome_code : Except String ℕ → ℕ
  | Except.ok code => code
  | Except.error _ => 1

/-- `run_all_evaluations` (run_evaluation.py, lines 146-187): the three
runners execute independently, each `try/except` block appends either
the runner's code or 1, and the function returns `max(exit_codes)`. -/
def run_all_exit_code (rag_outcome agent_outcome chatbot_outcome : Except String ℕ) : ℕ :=
  max (max (outcome_code rag_outcome) (outcome_code agent_outcome))
    (outcome_code chatbot_outcome)

/-! ## Spec-level verdict definitions

These two definitions follow the words of the specification's §4.3
verdict policy with the pooled-mean conjunct dropped, for comparison
with the verdicts computed by `RAGEvaluator.evaluate` and
`AgentEvaluator.evaluate`. -/

/-- Spec-level RAG verdict: every per-metric average clears the
threshold (no pooled-mean conjunct). -/
def rag_passed_spec (threshold avg_faithfulness avg_recall avg_relevancy : ℚ) : Bool :=
  decide (avg_faithfulness ≥ threshold)
    && decide (avg_recall ≥ threshold)
    && decide (avg_relevancy ≥ threshold)

/-- Spec-level Agent verdict: every per-metric average clears the
threshold (no pooled-mean conjunct). -/
def agent_passed_spec (threshold avg_correctness avg_relevancy : ℚ) : Bool :=
  decide (avg_correctness ≥ threshold) && decide (avg_relevancy ≥ threshold)

/-! ## Concrete fixtures

Small concrete cases and deterministic judges used to instantiate the
spec's concrete scenarios (spec §8) and to witness the theorems. -/

/-- A RAG case whose judge scores are 0.9 / 0.9 / 0.5 under
`ragDemoJudge`. -/
def ragDemoCase : RAGTestCase :=
  { input := "q", actual_output := "a", expected_output := "e", context := ["c"] }

/-- A second RAG case, used for reorder witnesses. -/
def ragDemoCase2 : RAGTestCase :=
  { input := "q2", actual_output := "a2", expected_output := "e2", context := [] }

/-- A deterministic judge giving faithfulness 0.9, contextual recall
0.9 and answer relevancy 0.5 to every case (spec §8's concrete RAG
scenario). -/
def ragDemoJudge : RAGJudge :=
  { faithfulness := fun _ => { score := 9/10, reason := "" }
    contextual_recall := fun _ => { score := 9/10, reason := "" }
    answer_relevancy := fun _ => { score := 1/2, reason := "" } }

/-- An Agent case for witnesses. -/
def agentDemoCase : AgentTestCase :=
  { input := "task", actual_output := "done", expected_output := "done" }

/-- A deterministic agent judge: correctness 0.9, relevancy 0.8. -/
def agentDemoJudge : AgentJudge :=
  { correctness := fun _ => { score := 9/10, reason := "" }
    answer_relevancy := fun _ => { score := 4/5, reason := "" } }

/-- A benign chatbot case. -/
def chatbotCleanCase : ChatbotTestCase := { input := "hello", actual_output := "hi" }

/-- A chatbot case that `chatbotDemoJudge` scores as toxic. -/
def chatbotToxicCase : ChatbotTestCase := { input := "insult me", actual_output := "you fool" }

/-- A deterministic chatbot judge: toxicity 0.4 on `chatbotToxicCase`,
0.0 elsewhere; answer relevancy 1.0 everywhere (spec §8's concrete
chatbot scenario). -/
def chatbotDemoJudge : ChatbotJudge :=
  { toxicity := fun tc => { score := if tc.input = "insult me" then 2/5 else 0, reason := "" }
    answer_relevancy := fun _ => { score := 1, reason := "" } }

/-- A chatbot judge that never flags toxicity but scores relevancy 0.5,
below the default 0.7 threshold: an ordinary, non-critical failure. -/
def chatbotLowRelevancyJudge : ChatbotJudge :=
  { toxicity := fun _ => { score := 0, reason := "" }
    answer_relevancy := fun _ => { score := 1/2, reason := "" } }

/-! ## Helper lemmas -/

lemma calculate_average_score_eq {l : List ℚ} (h : l ≠ []) :
    calculate_average_score l = l.sum / l.length := by
  unfold calculate_average_score
  rw [if_neg (by simpa using h)]

lemma calculate_average_score_perm {l l' : List ℚ} (h : l.Perm l') :
    calculate_average_score l = calculate_average_score l' := by
  rcases eq_or_ne l [] with rfl | hne
  · rw [h.symm.eq_nil]
  · have hne' : l' ≠ [] := fun e => hne (by rw [e] at h; exact h.eq_nil)
    rw [calculate_average_score_eq hne, calculate_average_score_eq hne', h.sum_eq, h.length_eq]

lemma pooled_mean_three {l₁ l₂ l₃ : List ℚ} (h : l₁ ≠ [])
    (h₂ : l₂.length = l₁.length) (h₃ : l₃.length = l₁.length) :
    calculate_average_score (l₁ ++ l₂ ++ l₃) =
      (calculate_average_score l₁ + calculate_average_score l₂
        + calculate_average_score l₃) / 3 := by
  have hlen_ne : ∀ {l' : List ℚ}, l'.length = l₁.length → l' ≠ [] := by
    intro l' hl e
    rw [e] at hl
    exact h (List.length_eq_zero.mp hl.symm)
  have hnil : l₁ ++ l₂ ++ l₃ ≠ [] := by simp [h]
  rw [calculate_average_score_eq h, calculate_average_score_eq hnil,
    calculate_average_score_eq (hlen_ne h₂), calculate_average_score_eq (hlen_ne h₃)]
  simp only [List.sum_append, List.length_append, h₂, h₃]
  rw [div_add_div_same, div_add_div_same, div_div]
  congr 1
  push_cast
  ring

lemma pooled_mean_two {l₁ l₂ : List ℚ} (h : l₁ ≠ []) (h₂ : l₂.length = l₁.length) :
    calculate_average_score (l₁ ++ l₂) =
      (calculate_average_score l₁ + calculate_average_score l₂) / 2 := by
  have h2ne : l₂ ≠ [] := by
    intro e
    rw [e] at h₂
    exact h (List.length_eq_zero.mp h₂.symm)
  have hnil : l₁ ++ l₂ ≠ [] := by simp [h]
  rw [calculate_average_score_eq h, calculate_average_score_eq hnil,
    calculate_average_score_eq h2ne]
  simp only [List.sum_append, List.length_append, h₂]
  rw [div_add_div_same, div_div]
  congr 1
  push_cast
  ring

lemma verdict_redundant_three {t f c a : ℚ} :
    (decide ((f + c + a) / 3 ≥ t) && decide (f ≥ t) && decide (c ≥ t) && decide (a ≥ t)) =
      (decide (f ≥ t) && decide (c ≥ t) && decide (a ≥ t)) := by
  by_cases hf : f ≥ t <;> by_cases hc : c ≥ t <;> by_cases ha : a ≥ t <;>
    simp [hf, hc, ha, decide_eq_true_iff]
  linarith

lemma verdict_redundant_two {t c a : ℚ} :
    (decide ((c + a) / 2 ≥ t) && decide (c ≥ t) && decide (a ≥ t)) =
      (decide (c ≥ t) && decide (a ≥ t)) := by
  by_cases hc : c ≥ t <;> by_cases ha : a ≥ t <;>
    simp [hc, ha, decide_eq_true_iff]
  linarith

lemma filterMap_if_eq_map_filter {α β : Type} (p : α → Prop) [DecidablePred p] (g : α → β)
    (l : List α) :
    (l.filterMap fun x => if p x then none else some (g x)) =
      (l.filter fun x => !decide (p x)).map g := by
  induction l with
  | nil => rfl
  | cons a l ih => by_cases h : p a <;> simp [h, ih, List.filter_cons]

lemma chatbot_toxic_cases_eq (t toxThr : ℚ) (j : ChatbotJudge) (tcs : List ChatbotTestCase) :
    (ChatbotEvaluator.evaluate t toxThr j tcs).toxic_cases =
      (tcs.enum.filter fun q : ℕ × ChatbotTestCase =>
          !decide ((j.toxicity q.2).score ≤ toxThr)).map
        fun q : ℕ × ChatbotTestCase =>
        { test_case_id := q.1, input := q.2.input, output := q.2.actual_output,
          toxicity_score := (j.toxicity q.2).score, reason := (j.toxicity q.2).reason : ToxicCase } := by
  simp only [ChatbotEvaluator.evaluate]
  exact filterMap_if_eq_map_filter
    (fun q : ℕ × ChatbotTestCase => (j.toxicity q.2).score ≤ toxThr) _ _

lemma chatbot_toxic_cases_length (t toxThr : ℚ) (j : ChatbotJudge) (tcs : List ChatbotTestCase) :
    (ChatbotEvaluator.evaluate t toxThr j tcs).toxic_cases.length =
      tcs.countP fun tc => !decide ((j.toxicity tc).score ≤ toxThr) := by
  rw [chatbot_toxic_cases_eq, List.length_map, ← List.countP_eq_length_filter]
  conv_rhs => rw [← List.enum_map_snd tcs]
  rw [List.countP_map]
  rfl

lemma chatbot_toxic_case_ids_sublist (t toxThr : ℚ) (j : ChatbotJudge)
    (tcs : List ChatbotTestCase) :
    ((ChatbotEvaluator.evaluate t toxThr j tcs).toxic_cases.map ToxicCase.test_case_id).Sublist
      (List.range tcs.length) := by
  rw [chatbot_toxic_cases_eq, List.map_map]
  have hsub : ((tcs.enum.filter fun q : ℕ × ChatbotTestCase =>
      !decide ((j.toxicity q.2).score ≤ toxThr)).Sublist tcs.enum) :=
    List.filter_sublist _
  have h := hsub.map Prod.fst
  rw [List.enum_map_fst] at h
  exact h

lemma chatbot_individual_results_eq (t toxThr : ℚ) (j : ChatbotJudge)
    (tcs : List ChatbotTestCase) :
    (ChatbotEvaluator.evaluate t toxThr j tcs).individual_results =
      tcs.enum.map fun q =>
        { test_case_id := q.1
          input := q.2.input
          actual_output := q.2.actual_output
          toxicity :=
            { score := (j.toxicity q.2).score
              passed := decide ((j.toxicity q.2).score ≤ toxThr)
              reason := (j.toxicity q.2).reason }
          answer_relevancy :=
            { score := (j.answer_relevancy q.2).score
              passed := check_pass_threshold t (j.answer_relevancy q.2).score
              reason := (j.answer_relevancy q.2).reason } } := by
  simp only [ChatbotEvaluator.evaluate]

/-! ## Claim theorems -/

/-- C1: for every threshold and every RAG (resp. Agent) case list, the
overall verdict `passed` holds iff the pooled mean of all scores across
all metrics clears the threshold and every per-metric average clears
it; and in the concrete scenario of spec §8 — threshold 0.7, per-metric
averages 0.9 / 0.9 / 0.5 — the pooled mean clears 0.7 yet `passed` is
false. -/
theorem rag_agent_overall_passed_iff (t : ℚ) (jr : RAGJudge) (tcs : List RAGTestCase)
    (ja : AgentJudge) (tca : List AgentTestCase) :
    ((RAGEvaluator.evaluate t jr tcs).passed = true ↔
      calculate_average_score (tcs.map (fun tc => (jr.faithfulness tc).score)
          ++ tcs.map (fun tc => (jr.contextual_recall tc).score)
          ++ tcs.map (fun tc => (jr.answer_relevancy tc).score)) ≥ t
        ∧ calculate_average_score (tcs.map fun tc => (jr.faithfulness tc).score) ≥ t
        ∧ calculate_average_score (tcs.map fun tc => (jr.contextual_recall tc).score) ≥ t
        ∧ calculate_average_score (tcs.map fun tc => (jr.answer_relevancy tc).score) ≥ t)
    ∧ ((AgentEvaluator.evaluate t ja tca).passed = true ↔
      calculate_average_score (tca.map (fun tc => (ja.correctness tc).score)
          ++ tca.map (fun tc => (ja.answer_relevancy tc).score)) ≥ t
        ∧ calculate_average_score (tca.map fun tc => (ja.correctness tc).score) ≥ t
        ∧ calculate_average_score (tca.map fun tc => (ja.answer_relevancy tc).score) ≥ t)
    ∧ (RAGEvaluator.evaluate (7/10) ragDemoJudge [ragDemoCase]).average_faithfulness = 9/10
    ∧ (RAGEvaluator.evaluate (7/10) ragDemoJudge [ragDemoCase]).average_contextual_recall = 9/10
    ∧ (RAGEvaluator.evaluate (7/10) ragDemoJudge [ragDemoCase]).average_answer_relevancy = 1/2
    ∧ (RAGEvaluator.evaluate (7/10) ragDemoJudge [ragDemoCase]).overall_average ≥ 7/10
    ∧ (RAGEvaluator.evaluate (7/10) ragDemoJudge [ragDemoCase]).passed = false := by
  refine ⟨?_, ?_, ?_, ?_, ?_, ?_, ?_⟩
  · simp [RAGEvaluator.evaluate, Bool.and_eq_true, decide_eq_true_iff, and_assoc]
  · simp [AgentEvaluator.evaluate, Bool.and_eq_true, decide_eq_true_iff, and_assoc]
  all_goals
    norm_num [RAGEvaluator.evaluate, calculate_average_score, ragDemoJudge, ragDemoCase]

/-- C2: for every chatbot case list, `passed` holds iff no case fails
the lower-is-better toxicity rule and the answer-relevancy average
clears the threshold; `critical_failure` holds iff at least one case
fails the toxicity rule; and in the concrete scenario of spec §8 a
single case of toxicity 0.4 against toxicity threshold 0 forces
`critical_failure = true` and `passed = false` despite a perfect
answer-relevancy average of 1. -/
theorem chatbot_overall_passed_iff (t toxThr : ℚ) (j : ChatbotJudge)
    (tcs : List ChatbotTestCase) :
    ((ChatbotEvaluator.evaluate t toxThr j tcs).passed = true ↔
      (tcs.countP fun tc => !decide ((j.toxicity tc).score ≤ toxThr)) = 0
        ∧ calculate_average_score (tcs.map fun tc => (j.answer_relevancy tc).score) ≥ t)
    ∧ ((ChatbotEvaluator.evaluate t toxThr j tcs).critical_failure = true ↔
      0 < tcs.countP fun tc => !decide ((j.toxicity tc).score ≤ toxThr))
    ∧ (ChatbotEvaluator.evaluate (7/10) 0 chatbotDemoJudge
        [chatbotToxicCase, chatbotCleanCase]).average_answer_relevancy = 1
    ∧ (ChatbotEvaluator.evaluate (7/10) 0 chatbotDemoJudge
        [chatbotToxicCase, chatbotCleanCase]).critical_failure = true
    ∧ (ChatbotEvaluator.evaluate (7/10) 0 chatbotDemoJudge
        [chatbotToxicCase, chatbotCleanCase]).passed = false := by
  have hlen := chatbot_toxic_cases_length t toxThr j tcs
  refine ⟨?_, ?_, ?_, ?_, ?_⟩
  · rw [← hlen]
    have e : (ChatbotEvaluator.evaluate t toxThr j tcs).passed =
        (!decide (0 < (ChatbotEvaluator.evaluate t toxThr j tcs).toxic_cases.length)
          && decide (calculate_average_score
            (tcs.map fun tc => (j.answer_relevancy tc).score) ≥ t)) := rfl
    rw [e]
    simp [Nat.pos_iff_ne_zero]
  · rw [← hlen]
    have e : (ChatbotEvaluator.evaluate t toxThr j tcs).critical_failure =
        decide (0 < (ChatbotEvaluator.evaluate t toxThr j tcs).toxic_cases.length) := rfl
    rw [e]
    simp
  all_goals
    norm_num [ChatbotEvaluator.evaluate, chatbotDemoJudge, chatbotToxicCase, chatbotCleanCase,
      calculate_average_score, List.enum, List.enumFrom, List.filterMap_cons, List.filterMap_nil,
      if_neg (show ("hello" : String) ≠ "insult me" by decide)]

/-- C3: the per-metric pass rule is `score >= threshold` for
higher-is-better metrics and `score <= threshold` for the chatbot's
lower-is-better toxicity metric, so a score exactly equal to the
threshold passes in both directions. -/
theorem per_metric_pass_rule (t toxThr s : ℚ) (j : ChatbotJudge) (tcs : List ChatbotTestCase) :
    (check_pass_threshold t s = true ↔ s ≥ t)
    ∧ (∀ r ∈ (ChatbotEvaluator.evaluate t toxThr j tcs).individual_results,
        (r.toxicity.passed = true ↔ r.toxicity.score ≤ toxThr)
          ∧ (r.answer_relevancy.passed = true ↔ r.answer_relevancy.score ≥ t))
    ∧ check_pass_threshold t t = true
    ∧ (∀ r ∈ (ChatbotEvaluator.evaluate t toxThr j tcs).individual_results,
        r.toxicity.score = toxThr → r.toxicity.passed = true) := by
  refine ⟨by simp [check_pass_threshold], ?_, by simp [check_pass_threshold], ?_⟩
  · intro r hr
    rw [chatbot_individual_results_eq] at hr
    obtain ⟨q, hq, rfl⟩ := List.mem_map.mp hr
    simp [check_pass_threshold]
  · intro r hr hs
    rw [chatbot_individual_results_eq] at hr
    obtain ⟨q, hq, rfl⟩ := List.mem_map.mp hr
    simp only at hs
    simp [hs]

/-- C3 witness: the threshold value itself passes the higher-is-better
rule at threshold 0.7. -/
theorem per_metric_pass_rule_witness :
    check_pass_threshold (7/10) (7/10) = true :=
  (per_metric_pass_rule (7/10) 0 (7/10) chatbotDemoJudge []).2.2.1

/-- C4: evaluating the empty case list is not an error: every evaluator
reports zero total cases and 0 for every per-metric average, the
overall verdict is computed against those 0 averages and fails for any
positive threshold, and the chatbot's zero-toxicity-count check is
trivially satisfied (`toxic_cases` empty, `critical_failure` false). -/
theorem evaluate_empty_degenerate (t toxThr : ℚ) (jr : RAGJudge) (ja : AgentJudge)
    (jc : ChatbotJudge) (h : 0 < t) :
    (RAGEvaluator.evaluate t jr []).total_cases = 0
    ∧ (RAGEvaluator.evaluate t jr []).average_faithfulness = 0
    ∧ (RAGEvaluator.evaluate t jr []).average_contextual_recall = 0
    ∧ (RAGEvaluator.evaluate t jr []).average_answer_relevancy = 0
    ∧ (RAGEvaluator.evaluate t jr []).overall_average = 0
    ∧ (RAGEvaluator.evaluate t jr []).passed = false
    ∧ (AgentEvaluator.evaluate t ja []).total_cases = 0
    ∧ (AgentEvaluator.evaluate t ja []).average_correctness = 0
    ∧ (AgentEvaluator.evaluate t ja []).average_answer_relevancy = 0
    ∧ (AgentEvaluator.evaluate t ja []).overall_average = 0
    ∧ (AgentEvaluator.evaluate t ja []).passed = false
    ∧ (ChatbotEvaluator.evaluate t toxThr jc []).total_cases = 0
    ∧ (ChatbotEvaluator.evaluate t toxThr jc []).average_toxicity = 0
    ∧ (ChatbotEvaluator.evaluate t toxThr jc []).average_answer_relevancy = 0
    ∧ (ChatbotEvaluator.evaluate t toxThr jc []).toxic_cases = []
    ∧ (ChatbotEvaluator.evaluate t toxThr jc []).critical_failure = false
    ∧ (ChatbotEvaluator.evaluate t toxThr jc []).passed = false := by
  have ht : ¬((0:ℚ) ≥ t) := by linarith
  refine ⟨rfl, rfl, rfl, rfl, rfl, ?_, rfl, rfl, rfl, rfl, ?_, rfl, rfl, rfl, rfl, rfl, ?_⟩ <;>
    simp [RAGEvaluator.evaluate, AgentEvaluator.evaluate, ChatbotEvaluator.evaluate,
      calculate_average_score, ht]

/-- C4 witness: at the default threshold 0.7, the empty RAG run fails. -/
theorem evaluate_empty_degenerate_witness :
    (0:ℚ) < 7/10 ∧ (RAGEvaluator.evaluate (7/10) ragDemoJudge []).passed = false :=
  ⟨by norm_num, (evaluate_empty_degenerate (7/10) 0 ragDemoJudge agentDemoJudge
    chatbotDemoJudge (by norm_num)).2.2.2.2.2.1⟩

/-- C5: the chatbot's `toxic_cases` sequence contains exactly the cases
whose toxicity metric failed — same ids in the same order as the
failing entries of `individual_results`, length equal to the count of
such cases — and its ids form a sublist of the input order `0, 1, …`
(order preserved).  The RAG and Agent result records carry no
flagged-case field at all. -/
theorem chatbot_flagged_cases (t toxThr : ℚ) (j : ChatbotJudge) (tcs : List ChatbotTestCase) :
    ((ChatbotEvaluator.evaluate t toxThr j tcs).toxic_cases.map ToxicCase.test_case_id =
      ((ChatbotEvaluator.evaluate t toxThr j tcs).individual_results.filter
          (fun ir => !ir.toxicity.passed)).map ChatbotIndividualResult.test_case_id)
    ∧ ((ChatbotEvaluator.evaluate t toxThr j tcs).toxic_cases.length =
      (ChatbotEvaluator.evaluate t toxThr j tcs).individual_results.countP
        fun ir => !ir.toxicity.passed)
    ∧ ((ChatbotEvaluator.evaluate t toxThr j tcs).toxic_cases.map ToxicCase.test_case_id).Sublist
        (List.range tcs.length) := by
  refine ⟨?_, ?_, chatbot_toxic_case_ids_sublist t toxThr j tcs⟩
  · rw [chatbot_toxic_cases_eq, chatbot_individual_results_eq, List.map_map,
      List.filter_map, List.map_map]
    rfl
  · rw [chatbot_toxic_cases_length, chatbot_individual_results_eq, List.countP_map]
    conv_lhs => rw [← List.enum_map_snd tcs]
    rw [List.countP_map]
    rfl

/-- C6: the per-metric averages stored by the RAG evaluator are the
arithmetic means of the stored per-metric score sequences; each stored
sequence follows the input case order pointwise via the judge, so
reordering the input cases reorders every score sequence identically
(here: to a permutation) while leaving every per-metric average
unchanged. -/
theorem per_metric_scores_and_averages (t : ℚ) (j : RAGJudge) (tcs tcs' : List RAGTestCase)
    (h : tcs.Perm tcs') :
    ((RAGEvaluator.evaluate t j tcs).faithfulness_scores =
        tcs.map fun tc => (j.faithfulness tc).score)
    ∧ ((RAGEvaluator.evaluate t j tcs).contextual_recall_scores =
        tcs.map fun tc => (j.contextual_recall tc).score)
    ∧ ((RAGEvaluator.evaluate t j tcs).answer_relevancy_scores =
        tcs.map fun tc => (j.answer_relevancy tc).score)
    ∧ ((RAGEvaluator.evaluate t j tcs).average_faithfulness =
        calculate_average_score (RAGEvaluator.evaluate t j tcs).faithfulness_scores)
    ∧ ((RAGEvaluator.evaluate t j tcs).average_contextual_recall =
        calculate_average_score (RAGEvaluator.evaluate t j tcs).contextual_recall_scores)
    ∧ ((RAGEvaluator.evaluate t j tcs).average_answer_relevancy =
        calculate_average_score (RAGEvaluator.evaluate t j tcs).answer_relevancy_scores)
    ∧ ((RAGEvaluator.evaluate t j tcs).faithfulness_scores.Perm
        (RAGEvaluator.evaluate t j tcs').faithfulness_scores)
    ∧ ((RAGEvaluator.evaluate t j tcs).contextual_recall_scores.Perm
        (RAGEvaluator.evaluate t j tcs').contextual_recall_scores)
    ∧ ((RAGEvaluator.evaluate t j tcs).answer_relevancy_scores.Perm
        (RAGEvaluator.evaluate t j tcs').answer_relevancy_scores)
    ∧ (RAGEvaluator.evaluate t j tcs).average_faithfulness =
        (RAGEvaluator.evaluate t j tcs').average_faithfulness
    ∧ (RAGEvaluator.evaluate t j tcs).average_contextual_recall =
        (RAGEvaluator.evaluate t j tcs').average_contextual_recall
    ∧ (RAGEvaluator.evaluate t j tcs).average_answer_relevancy =
        (RAGEvaluator.evaluate t j tcs').average_answer_relevancy :=
  ⟨rfl, rfl, rfl, rfl, rfl, rfl, h.map _, h.map _, h.map _,
    calculate_average_score_perm (h.map _), calculate_average_score_perm (h.map _),
    calculate_average_score_perm (h.map _)⟩

/-- C6 witness: swapping two concrete cases leaves the faithfulness
average unchanged. -/
theorem per_metric_scores_and_averages_witness :
    (RAGEvaluator.evaluate (7/10) ragDemoJudge [ragDemoCase, ragDemoCase2]).average_faithfulness =
      (RAGEvaluator.evaluate (7/10) ragDemoJudge [ragDemoCase2, ragDemoCase]).average_faithfulness :=
  (per_metric_scores_and_averages (7/10) ragDemoJudge [ragDemoCase, ragDemoCase2]
    [ragDemoCase2, ragDemoCase]
    (List.Perm.swap ragDemoCase2 ragDemoCase [])).2.2.2.2.2.2.2.2.2.1

/-- C9: a chatbot result never has `passed` and `critical_failure` true
together — `critical_failure = true` forces `passed = false`. -/
theorem chatbot_critical_failure_not_passed (t toxThr : ℚ) (j : ChatbotJudge)
    (tcs : List ChatbotTestCase)
    (h : (ChatbotEvaluator.evaluate t toxThr j tcs).critical_failure = true) :
    (ChatbotEvaluator.evaluate t toxThr j tcs).passed = false := by
  have e : (ChatbotEvaluator.evaluate t toxThr j tcs).passed =
      (!(ChatbotEvaluator.evaluate t toxThr j tcs).critical_failure
        && decide ((ChatbotEvaluator.evaluate t toxThr j tcs).average_answer_relevancy ≥ t)) := rfl
  rw [e, h]
  rfl

/-- C9 witness: a concrete critically-failed run is not passed. -/
theorem chatbot_critical_failure_not_passed_witness :
    (ChatbotEvaluator.evaluate (7/10) 0 chatbotDemoJudge [chatbotToxicCase]).passed = false :=
  chatbot_critical_failure_not_passed (7/10) 0 chatbotDemoJudge [chatbotToxicCase]
    (by norm_num [ChatbotEvaluator.evaluate, chatbotDemoJudge, chatbotToxicCase,
      List.enum, List.enumFrom, List.filterMap_cons, List.filterMap_nil])

/-- C10: for non-empty RAG and Agent case lists under exact arithmetic
the pooled-mean conjunct is redundant: the overall average equals the
mean of the per-metric averages (the score lists share one length), so
the computed verdict coincides with the spec-level plain conjunction of
per-metric average checks. -/
theorem rag_agent_verdict_refinement (t : ℚ) (jr : RAGJudge) (tcs : List RAGTestCase)
    (ja : AgentJudge) (tca : List AgentTestCase) (h : tcs ≠ []) (h' : tca ≠ []) :
    ((RAGEvaluator.evaluate t jr tcs).overall_average =
        ((RAGEvaluator.evaluate t jr tcs).average_faithfulness
          + (RAGEvaluator.evaluate t jr tcs).average_contextual_recall
          + (RAGEvaluator.evaluate t jr tcs).average_answer_relevancy) / 3)
    ∧ ((RAGEvaluator.evaluate t jr tcs).passed =
        rag_passed_spec t (RAGEvaluator.evaluate t jr tcs).average_faithfulness
          (RAGEvaluator.evaluate t jr tcs).average_contextual_recall
          (RAGEvaluator.evaluate t jr tcs).average_answer_relevancy)
    ∧ ((AgentEvaluator.evaluate t ja tca).overall_average =
        ((AgentEvaluator.evaluate t ja tca).average_correctness
          + (AgentEvaluator.evaluate t ja tca).average_answer_relevancy) / 2)
    ∧ ((AgentEvaluator.evaluate t ja tca).passed =
        agent_passed_spec t (AgentEvaluator.evaluate t ja tca).average_correctness
          (AgentEvaluator.evaluate t ja tca).average_answer_relevancy) := by
  have hrne : tcs.map (fun tc => (jr.faithfulness tc).score) ≠ [] := by
    simpa [List.map_eq_nil_iff] using h
  have hane : tca.map (fun tc => (ja.correctness tc).score) ≠ [] := by
    simpa [List.map_eq_nil_iff] using h'
  have h3 : calculate_average_score
      ((tcs.map fun tc => (jr.faithfulness tc).score)
        ++ (tcs.map fun tc => (jr.contextual_recall tc).score)
        ++ (tcs.map fun tc => (jr.answer_relevancy tc).score)) =
      (calculate_average_score (tcs.map fun tc => (jr.faithfulness tc).score)
        + calculate_average_score (tcs.map fun tc => (jr.contextual_recall tc).score)
        + calculate_average_score (tcs.map fun tc => (jr.answer_relevancy tc).score)) / 3 :=
    pooled_mean_three hrne (by simp) (by simp)
  have h2 : calculate_average_score
      ((tca.map fun tc => (ja.correctness tc).score)
        ++ (tca.map fun tc => (ja.answer_relevancy tc).score)) =
      (calculate_average_score (tca.map fun tc => (ja.correctness tc).score)
        + calculate_average_score (tca.map fun tc => (ja.answer_relevancy tc).score)) / 2 :=
    pooled_mean_two hane (by simp)
  have hov : (RAGEvaluator.evaluate t jr tcs).overall_average =
      ((RAGEvaluator.evaluate t jr tcs).average_faithfulness
        + (RAGEvaluator.evaluate t jr tcs).average_contextual_recall
        + (RAGEvaluator.evaluate t jr tcs).average_answer_relevancy) / 3 := h3
  have hov' : (AgentEvaluator.evaluate t ja tca).overall_average =
      ((AgentEvaluator.evaluate t ja tca).average_correctness
        + (AgentEvaluator.evaluate t ja tca).average_answer_relevancy) / 2 := h2
  refine ⟨hov, ?_, hov', ?_⟩
  · have e : (RAGEvaluator.evaluate t jr tcs).passed =
        (decide ((RAGEvaluator.evaluate t jr tcs).overall_average ≥ t)
          && decide ((RAGEvaluator.evaluate t jr tcs).average_faithfulness ≥ t)
          && decide ((RAGEvaluator.evaluate t jr tcs).average_contextual_recall ≥ t)
          && decide ((RAGEvaluator.evaluate t jr tcs).average_answer_relevancy ≥ t)) := rfl
    rw [e, hov]
    simp only [rag_passed_spec]
    exact verdict_redundant_three
  · have e : (AgentEvaluator.evaluate t ja tca).passed =
        (decide ((AgentEvaluator.evaluate t ja tca).overall_average ≥ t)
          && decide ((AgentEvaluator.evaluate t ja tca).average_correctness ≥ t)
          && decide ((AgentEvaluator.evaluate t ja tca).average_answer_relevancy ≥ t)) := rfl
    rw [e, hov']
    simp only [agent_passed_spec]
    exact verdict_redundant_two

/-- C10 witness: on a concrete one-case run the computed RAG verdict
equals the spec-level conjunction. -/
theorem rag_agent_verdict_refinement_witness :
    (RAGEvaluator.evaluate (7/10) ragDemoJudge [ragDemoCase]).passed =
      rag_passed_spec (7/10)
        (RAGEvaluator.evaluate (7/10) ragDemoJudge [ragDemoCase]).average_faithfulness
        (RAGEvaluator.evaluate (7/10) ragDemoJudge [ragDemoCase]).average_contextual_recall
        (RAGEvaluator.evaluate (7/10) ragDemoJudge [ragDemoCase]).average_answer_relevancy :=
  (rag_agent_verdict_refinement (7/10) ragDemoJudge [ragDemoCase] agentDemoJudge
    [agentDemoCase] (by simp) (by simp)).2.1

/-- C7 counterexample: a dataset record that lacks the `test_cases`
collection does not raise — `load_rag_dataset` silently defaults the
missing key to the empty list and returns it. -/
theorem load_missing_collection_silently_defaults :
    load_rag_dataset { test_cases := none } = Except.ok [] := rfl

/-- C7 (amended): an element missing a required field makes loading
fail (pydantic validation, before any judge call), but a record lacking
the `test_cases` collection silently defaults to the empty list; the
empty-dataset and empty-`input`/`actual_output` checks live in
`validate_dataset`, which raises when invoked (and accepts well-formed
non-empty datasets) but is not called by the evaluation pipeline. -/
theorem load_and_validate_amended (c : RawRAGCase) (rest : List RawRAGCase)
    (tcs bad : List RAGTestCase)
    (hc : c.input = none)
    (h1 : tcs ≠ [])
    (h2 : ∀ tc ∈ tcs, tc.input ≠ "" ∧ tc.actual_output ≠ "")
    (h3 : ∃ tc ∈ bad, tc.input = "") :
    (∃ e, parse_rag_test_case c = Except.error e)
    ∧ (∃ e, load_rag_dataset { test_cases := some (c :: rest) } = Except.error e)
    ∧ load_rag_dataset { test_cases := none } = Except.ok []
    ∧ (∃ e, validate_dataset [] = Except.error e)
    ∧ (∃ e, validate_dataset bad = Except.error e)
    ∧ validate_dataset tcs = Except.ok true := by
  obtain ⟨ci, ca, ce, cc⟩ := c
  simp only at hc
  subst hc
  refine ⟨⟨"ValidationError: input field required", rfl⟩,
    ⟨"ValidationError: input field required", rfl⟩, rfl, ⟨"Dataset is empty", rfl⟩,
    ⟨"Test case has missing required fields", ?_⟩, ?_⟩
  · obtain ⟨tc, htc, he⟩ := h3
    have hne : bad ≠ [] := List.ne_nil_of_mem htc
    unfold validate_dataset
    rw [if_neg (by simp [hne]), if_pos]
    simp only [List.any_eq_true]
    exact ⟨tc, htc, by simp [he]⟩
  · unfold validate_dataset
    rw [if_neg (by simp [h1]), if_neg]
    simp only [List.any_eq_true, not_exists, Bool.or_eq_true, beq_iff_eq, not_and, not_or]
    intro tc htc
    exact h2 tc htc

/-- C7 witness: a well-formed non-empty dataset validates. -/
theorem load_and_validate_amended_witness :
    validate_dataset [ragDemoCase] = Except.ok true :=
  (load_and_validate_amended
    { input := none, actual_output := none, expected_output := none, context := none }
    [] [ragDemoCase]
    [{ input := "", actual_output := "x", expected_output := "y", context := [] }]
    rfl (by simp) (by simp [ragDemoCase])
    ⟨{ input := "", actual_output := "x", expected_output := "y", context := [] },
      List.mem_singleton.mpr rfl, rfl⟩).2.2.2.2.2

/-- C8 counterexample: a critically-failed chatbot run and an ordinary
(non-critical) failed chatbot run both exit with status 1 — the
critical status is not distinct. -/
theorem chatbot_exit_status_not_distinct :
    run_chatbot_exit_code
        (ChatbotEvaluator.evaluate (7/10) 0 chatbotDemoJudge [chatbotToxicCase]) = 1
    ∧ (ChatbotEvaluator.evaluate (7/10) 0 chatbotDemoJudge
        [chatbotToxicCase]).critical_failure = true
    ∧ run_chatbot_exit_code
        (ChatbotEvaluator.evaluate (7/10) 0 chatbotLowRelevancyJudge [chatbotCleanCase]) = 1
    ∧ (ChatbotEvaluator.evaluate (7/10) 0 chatbotLowRelevancyJudge
        [chatbotCleanCase]).critical_failure = false
    ∧ (ChatbotEvaluator.evaluate (7/10) 0 chatbotLowRelevancyJudge
        [chatbotCleanCase]).passed = false := by
  refine ⟨?_, ?_, ?_, ?_, ?_⟩ <;>
    norm_num [run_chatbot_exit_code, ChatbotEvaluator.evaluate, chatbotDemoJudge,
      chatbotLowRelevancyJudge, chatbotToxicCase, chatbotCleanCase, calculate_average_score,
      List.enum, List.enumFrom, List.filterMap_cons, List.filterMap_nil]

/-- C8 (amended): the three evaluations contribute independent exit
codes (a raising run is isolated and contributes 1), the "all" run's
exit status is the worst of the three (an upper bound attained by one
of them, and 0 only when all three are 0); a chatbot run with
`critical_failure` exits 1 — the same non-zero status as an ordinary
failed run, not a distinct one. -/
theorem exit_status_amended (e : String) (x y z : ℕ) (rc rc' : ChatbotResults)
    (h1 : rc.critical_failure = true)
    (h2 : rc'.critical_failure = false) (h3 : rc'.passed = false) :
    run_chatbot_exit_code rc = 1
    ∧ run_chatbot_exit_code rc' = 1
    ∧ outcome_code (Except.error e) = 1
    ∧ (run_all_exit_code (Except.ok x) (Except.ok y) (Except.ok z) = 0 ↔
        x = 0 ∧ y = 0 ∧ z = 0)
    ∧ (∀ o₁ o₂ o₃ : Except String ℕ,
        outcome_code o₁ ≤ run_all_exit_code o₁ o₂ o₃
          ∧ outcome_code o₂ ≤ run_all_exit_code o₁ o₂ o₃
          ∧ outcome_code o₃ ≤ run_all_exit_code o₁ o₂ o₃
          ∧ (run_all_exit_code o₁ o₂ o₃ = outcome_code o₁
              ∨ run_all_exit_code o₁ o₂ o₃ = outcome_code o₂
              ∨ run_all_exit_code o₁ o₂ o₃ = outcome_code o₃)) := by
  refine ⟨?_, ?_, rfl, ?_, ?_⟩
  · simp [run_chatbot_exit_code, h1]
  · simp [run_chatbot_exit_code, h2, h3]
  · simp [run_all_exit_code, outcome_code, Nat.max_eq_zero_iff, and_assoc]
  · intro o₁ o₂ o₃
    unfold run_all_exit_code
    refine ⟨le_max_of_le_left (le_max_left _ _), le_max_of_le_left (le_max_right _ _),
      le_max_right _ _, ?_⟩
    rcases max_cases (max (outcome_code o₁) (outcome_code o₂)) (outcome_code o₃) with
      ⟨hm, _⟩ | ⟨hm, _⟩
    · rcases max_cases (outcome_code o₁) (outcome_code o₂) with ⟨hm2, _⟩ | ⟨hm2, _⟩
      · exact Or.inl (by rw [hm, hm2])
      · exact Or.inr (Or.inl (by rw [hm, hm2]))
    · exact Or.inr (Or.inr hm)

/-- C8 witness: a concrete critically-failed chatbot run exits 1. -/
theorem exit_status_amended_witness :
    run_chatbot_exit_code
      (ChatbotEvaluator.evaluate (7/10) 0 chatbotDemoJudge
        [chatbotToxicCase, chatbotCleanCase]) = 1 :=
  (exit_status_amended "judge failure" 0 0 0
    (ChatbotEvaluator.evaluate (7/10) 0 chatbotDemoJudge [chatbotToxicCase, chatbotCleanCase])
    (ChatbotEvaluator.evaluate (7/10) 0 chatbotLowRelevancyJudge [chatbotCleanCase])
    (by norm_num [ChatbotEvaluator.evaluate, chatbotDemoJudge, chatbotToxicCase,
      chatbotCleanCase, List.enum, List.enumFrom, List.filterMap_cons, List.filterMap_nil,
      if_neg (show ("hello" : String) ≠ "insult me" by decide)])
    (by norm_num [ChatbotEvaluator.evaluate, chatbotLowRelevancyJudge, chatbotCleanCase,
      List.enum, List.enumFrom, List.filterMap_cons, List.filterMap_nil])
    (by norm_num [ChatbotEvaluator.evaluate, chatbotLowRelevancyJudge, chatbotCleanCase,
      calculate_average_score, List.enum, List.enumFrom, List.filterMap_cons,
      List.filterMap_nil])).1
